import Mathlib

/-!
# Verification of the neutrl-pendle TVL aggregation and points-emission core

Shallow embedding of the repository's core logic:

* `RowVal` — the Row Valuation Engine `calculateRowData` / `calculateSummary`
  from `scripts/capture-snapshot.js` (identical logic in the unnamed
  `capture-tvl-data.js` copy). Amounts are modelled as rationals: the JS
  arithmetic here is `+`, `*`, `/` and comparisons only.
* `Growth` — the inflation route's growth-rate computation (sort, calendar-day
  difference, compound daily rate) over the reals, with `Real.rpow` standing
  for `Math.pow`.
* `Chart` — the `InflationChart.projectionData` projection formulas
  (DirectCompound multiplier and the TVL-scaled average-emission multiplier).
* `Capture` — the capture orchestrator `main` of `capture-snapshot.js`:
  retried TVL fetch (required), retried points fetch (optional), summary
  assembly.
* `SnapApi` — the snapshot-store POST handler: field validation and the
  derived `captured_at_unix`.
-/

namespace RowVal

/-- The `status` field of a row definition in `TVL_CATEGORIES`:
"active" | "locked" | "excluded" | "display". -/
inductive RowStatus where
  | active
  | locked
  | excluded
  | display
deriving DecidableEq, Repr

/-- One entry of the static `TVL_CATEGORIES` row table.
`baseBoost = none` models a row literal without a `baseBoost` field. -/
structure RowDef where
  id : String
  status : RowStatus
  boost : ℚ
  baseBoost : Option ℚ
deriving DecidableEq, Repr

/-- JS truthiness of a number (NaN aside): zero is falsy. -/
def jsTruthy (x : ℚ) : Bool := x ≠ 0

/-- The initialisation `baseBoost: row.baseBoost || 1` in `calculateRowData`:
an absent or zero (falsy) `baseBoost` field becomes `1`. -/
def initBaseBoost (r : RowDef) : ℚ :=
  match r.baseBoost with
  | none => 1
  | some b => if jsTruthy b then b else 1

/-- The line `const effectiveBoost = row.baseBoost ? row.baseBoost * row.boost : row.boost`
evaluated on the initialised row object. -/
def effectiveBoost (r : RowDef) : ℚ :=
  if jsTruthy (initBaseBoost r) then initBaseBoost r * r.boost else r.boost

/-- Per-row `row.weightedTvl`: `0` for excluded rows, else `tvlAmount * effectiveBoost`. -/
def weightedTvl (r : RowDef) (amounts : String → ℚ) : ℚ :=
  if r.status = .excluded then 0 else amounts r.id * effectiveBoost r

/-- Whether a row is counted toward totals: `status === "active" || status === "locked"`. -/
def included (r : RowDef) : Bool :=
  r.status = .active ∨ r.status = .locked

/-- Running `totalWeightedTvl`: sum of `weightedTvl` over active and locked rows. -/
def totalWeightedTvl (defs : List RowDef) (amounts : String → ℚ) : ℚ :=
  ((defs.filter included).map (fun r => weightedTvl r amounts)).sum

/-- Per-row `row.share`: `(weightedTvl / totalWeightedTvl) * 100` when the total is
positive and the row is active or locked, else `0`. -/
def share (defs : List RowDef) (amounts : String → ℚ) (r : RowDef) : ℚ :=
  if totalWeightedTvl defs amounts > 0 ∧ included r then
    weightedTvl r amounts / totalWeightedTvl defs amounts * 100
  else 0

/-- The per-row output record of `calculateRowData`. -/
structure RowValue where
  id : String
  status : RowStatus
  tvlAmount : ℚ
  weightedTvl : ℚ
  dailyPoints : ℚ
  share : ℚ
deriving DecidableEq, Repr

/-- Function `calculateRowData`, with the upstream `tvlData → tvlAmount` field
assignments abstracted into the `amounts` map (rows absent from it read `0`).
`dailyPoints` equals `weightedTvl` (1 weighted TVL = 1 daily point). -/
def calculateRowData (defs : List RowDef) (amounts : String → ℚ) : List RowValue :=
  defs.map fun r =>
    { id := r.id
      status := r.status
      tvlAmount := amounts r.id
      weightedTvl := weightedTvl r amounts
      dailyPoints := weightedTvl r amounts
      share := share defs amounts r }

/-- Sum of `share` over the active and locked rows of an evaluation pass. -/
def sumIncludedShares (defs : List RowDef) (amounts : String → ℚ) : ℚ :=
  ((defs.filter included).map (share defs amounts)).sum

/-- The static `TVL_CATEGORIES` table of `capture-snapshot.js`, flattened
(category grouping only affects display, not valuation). -/
def tvlCategoriesRows : List RowDef :=
  [ -- FEBRUARY 26, 2026 MARKET
    ⟨"yt-nusd-feb26", .display, 50, none⟩,
    ⟨"pendle-fee-nusd", .active, 50, none⟩,
    ⟨"yt-nusd-feb26-net", .active, 50, none⟩,
    ⟨"lp-nusd-feb26", .display, 50, none⟩,
    ⟨"lp-excluded-nusd", .display, 0, none⟩,
    ⟨"lp-nusd-feb26-net", .active, 50, none⟩,
    ⟨"pt-nusd-feb26", .excluded, 0, none⟩,
    -- MARCH 5, 2026 MARKET
    ⟨"yt-snusd-mar26", .display, 25, none⟩,
    ⟨"pendle-fee-snusd", .active, 25, none⟩,
    ⟨"yt-snusd-mar26-net", .active, 25, none⟩,
    ⟨"lp-snusd-mar26", .display, 25, none⟩,
    ⟨"lp-excluded-snusd", .display, 0, none⟩,
    ⟨"lp-snusd-mar26-net", .active, 25, none⟩,
    ⟨"pt-snusd-mar26", .excluded, 0, none⟩,
    -- HOLD
    ⟨"hold-nusd", .active, 5, none⟩,
    ⟨"lock-nusd-3mo", .locked, 6, some 5⟩,
    ⟨"lock-nusd-6mo", .locked, 15, some 5⟩,
    ⟨"lock-nusd-9mo", .locked, 25, some 5⟩,
    ⟨"lock-nusd-12mo", .locked, 30, some 5⟩,
    ⟨"hold-snusd", .active, 1, none⟩,
    ⟨"lock-snusd-3mo", .locked, 8, some 1⟩,
    ⟨"lock-snusd-6mo", .locked, 20, some 1⟩,
    ⟨"lock-snusd-9mo", .locked, 30, some 1⟩,
    ⟨"lock-snusd-12mo", .locked, 40, some 1⟩,
    ⟨"hold-curve-lp", .active, 5, none⟩,
    ⟨"curve-nusd-breakdown", .display, 5, none⟩,
    ⟨"curve-usdc-breakdown", .display, 5, none⟩,
    ⟨"lock-curve-3mo", .locked, 4, some 5⟩,
    ⟨"lock-curve-6mo", .locked, 10, some 5⟩,
    ⟨"hold-upnusd", .active, 18, none⟩ ]

end RowVal

namespace Growth

/-- One history snapshot as read by the inflation route (`HistorySnapshot`).
`capturedAtMs` is the epoch-millisecond instant of the `capturedAt` ISO
timestamp; metric values are reals. -/
structure Snapshot where
  capturedAtMs : ℤ
  capturedAtUnix : ℤ
  s1RewardsIssued : ℝ
  totalTvl : ℝ
  weightedTvl : ℝ

instance : Inhabited Snapshot := ⟨⟨0, 0, 0, 0, 0⟩⟩

/-- Function `getCalendarDate`: truncating an instant to its calendar date and reading
it back as a `Date` yields the UTC midnight of that day, i.e. the
epoch-millisecond value floored to a multiple of 86 400 000. -/
def getCalendarDateMs (ms : ℤ) : ℤ :=
  86400000 * Int.fdiv ms 86400000

/-- Function `getCalendarDaysDiff`: `Math.round(diffTime / (1000*60*60*24))` where
`diffTime` is the difference of the two calendar-date midnights. -/
def getCalendarDaysDiff (fromMs toMs : ℤ) : ℤ :=
  round (((getCalendarDateMs toMs - getCalendarDateMs fromMs : ℤ) : ℚ) / 86400000)

/-- Insertion step for `sortByUnix` (ascending `capturedAtUnix`). -/
def insertByUnix (s : Snapshot) : List Snapshot → List Snapshot
  | [] => [s]
  | t :: ts =>
    if s.capturedAtUnix ≤ t.capturedAtUnix then s :: t :: ts
    else t :: insertByUnix s ts

/-- The call `historyData.sort((a, b) => a.capturedAtUnix - b.capturedAtUnix)`:
a stable ascending sort on `capturedAtUnix`. -/
def sortByUnix : List Snapshot → List Snapshot
  | [] => []
  | s :: ts => insertByUnix s (sortByUnix ts)

/-- One of `tvlDailyGrowthRate` / `weightedTvlDailyGrowthRate` /
`pointsDailyGrowthRate`:
`daysForCalc > 0 ? (Math.pow(latest/oldest, 1/daysForCalc) - 1) * 100 : 0`. -/
noncomputable def dailyGrowthRate (oldestV latestV : ℝ) (daysForCalc : ℤ) : ℝ :=
  if 0 < daysForCalc then
    ((latestV / oldestV) ^ ((1 : ℝ) / (daysForCalc : ℝ)) - 1) * 100
  else 0

/-- The three daily growth rates returned by the inflation route. -/
structure GrowthRates where
  tvlDailyGrowthRate : ℝ
  weightedTvlDailyGrowthRate : ℝ
  pointsDailyGrowthRate : ℝ

/-- The growth-rate portion of the inflation route's `GET` handler:
`none` models the 400 "Need at least 2 snapshots" response; otherwise the
history is sorted by `capturedAtUnix`, `oldest`/`latest` are its first/last
elements, `daysForCalc = max(getCalendarDaysDiff(oldest, latest), 1)`, and the
three compound daily rates are computed from the endpoint metric values. -/
noncomputable def computeGrowthRates (history : List Snapshot) : Option GrowthRates :=
  if history.length < 2 then none
  else
    let sorted := sortByUnix history
    let oldest := sorted.headI
    let latest := sorted.getLastI
    let totalDays := getCalendarDaysDiff oldest.capturedAtMs latest.capturedAtMs
    let daysForCalc := max totalDays 1
    some
      { tvlDailyGrowthRate := dailyGrowthRate oldest.totalTvl latest.totalTvl daysForCalc
        weightedTvlDailyGrowthRate :=
          dailyGrowthRate oldest.weightedTvl latest.weightedTvl daysForCalc
        pointsDailyGrowthRate :=
          dailyGrowthRate oldest.s1RewardsIssued latest.s1RewardsIssued daysForCalc }

end Growth

namespace Chart

/-- JS `x || 1` on a number: `0` is falsy and falls back to `1`. -/
noncomputable def jsOrOne (x : ℝ) : ℝ := if x = 0 then 1 else x

/-- Term `Math.pow(1 + rate / 100, day)` — the per-day compound multiplier used for
`tvlMultiplier` and `weightedTvlMultiplier` in `InflationChart.projectionData`. -/
noncomputable def tvlMultiplier (rate : ℝ) (day : ℕ) : ℝ :=
  (1 + rate / 100) ^ day

/-- Term `weightedTvlMultiplier === 1 ? 1 : (weightedTvlMultiplier - 1) /
(Math.log(weightedTvlMultiplier) || 1)`. -/
noncomputable def avgEmissionMultiplier (weightedTvlMultiplier : ℝ) : ℝ :=
  if weightedTvlMultiplier = 1 then 1
  else (weightedTvlMultiplier - 1) / jsOrOne (Real.log weightedTvlMultiplier)

/-- Term `projectedNewPoints = growthRates.actualDailyRate * avgEmissionMultiplier * day`. -/
noncomputable def projectedNewPoints (actualDailyRate weightedRate : ℝ) (day : ℕ) : ℝ :=
  actualDailyRate * avgEmissionMultiplier (tvlMultiplier weightedRate day) * day

/-- Term `projectedPoints = latest.s1RewardsIssued + projectedNewPoints`. -/
noncomputable def projectedPoints (latestPoints actualDailyRate weightedRate : ℝ)
    (day : ℕ) : ℝ :=
  latestPoints + projectedNewPoints actualDailyRate weightedRate day

/-- Term `projectedTvl = latest.totalTvl * tvlMultiplier` — the DirectCompound
projection of a metric from its own daily growth rate. -/
noncomputable def projectedTvl (latestTvl rate : ℝ) (day : ℕ) : ℝ :=
  latestTvl * tvlMultiplier rate day

end Chart

namespace Capture

/-- Outcome of one HTTP attempt, as classified by the retry logic of
`fetchTvlData`/`fetchPointsData`: `retryable` covers `AbortError` timeouts,
"fetch failed" network errors and Railway cold-start responses; `fatal` is
any other thrown error (thrown immediately, no retry). -/
inductive FetchOutcome (α : Type) where
  | ok (v : α)
  | retryable
  | fatal

/-- The retry recursion of `fetchTvlData`/`fetchPointsData`: the attempt at
index `retryCount` is retried while `retryCount < MAX_RETRIES` and the error
is retryable; `retriesLeft = MAX_RETRIES - retryCount` counts the retries
still allowed. -/
def retryLoop (attempts : ℕ → FetchOutcome α) : ℕ → ℕ → Except Unit α
  | retryCount, retriesLeft =>
    match attempts retryCount, retriesLeft with
    | .ok v, _ => .ok v
    | .fatal, _ => .error ()
    | .retryable, 0 => .error ()
    | .retryable, n + 1 => retryLoop attempts (retryCount + 1) n

/-- A whole retried fetch, starting at `retryCount = 0` with the given
`MAX_RETRIES` (4 for the TVL source, 2 for the points source). -/
def fetchWithRetry (attempts : ℕ → FetchOutcome α) (maxRetries : ℕ) : Except Unit α :=
  retryLoop attempts 0 maxRetries

/-- The points payload consumed by `calculateSummary`. -/
structure PointsData where
  totalPoints : ℚ
  participantCount : ℤ
deriving DecidableEq, Repr

/-- The numeric fields of the `calculateSummary` result (the `*Formatted`
string mirrors carry no independent information). -/
structure Summary where
  s1RewardsIssued : ℚ
  participantCount : ℤ
  totalTvl : ℚ
  weightedTvl : ℚ
deriving DecidableEq, Repr

/-- Function `calculateSummary`: totals over active and locked rows, and the
`pointsData?.totalPoints || 0` / `pointsData?.participantCount || 0`
fallbacks for a null points payload (on a number, `x || 0` is `x`). -/
def calculateSummary (defs : List RowVal.RowDef) (amounts : String → ℚ)
    (pointsData : Option PointsData) : Summary :=
  { s1RewardsIssued := match pointsData with | none => 0 | some p => p.totalPoints
    participantCount := match pointsData with | none => 0 | some p => p.participantCount
    totalTvl := ((defs.filter RowVal.included).map (fun r => amounts r.id)).sum
    weightedTvl := RowVal.totalWeightedTvl defs amounts }

/-- The snapshot object built by `main` in `capture-snapshot.js`. -/
structure Snapshot where
  capturedAtMs : ℤ
  capturedAtUnix : ℤ
  summary : Summary
  tableCondensed : List RowVal.RowValue
deriving DecidableEq, Repr

/-- The capture orchestrator `main`: the TVL fetch (MAX_RETRIES = 4) is
required — its failure aborts with `process.exit(1)` and nothing is written;
the points fetch (MAX_RETRIES = 2) is wrapped in `try/catch` and a failure
degrades to `pointsData = null`. The fetched TVL payload is modelled as the
`amounts` map it induces on row ids. `capturedAtUnix` is
`Math.floor(now.getTime() / 1000)`. -/
def mainCapture (tvlAttempts : ℕ → FetchOutcome (String → ℚ))
    (pointsAttempts : ℕ → FetchOutcome PointsData) (nowMs : ℤ) : Except Unit Snapshot :=
  match fetchWithRetry tvlAttempts 4 with
  | .error e => .error e
  | .ok amounts =>
    let pointsData : Option PointsData := (fetchWithRetry pointsAttempts 2).toOption
    .ok
      { capturedAtMs := nowMs
        capturedAtUnix := Int.fdiv nowMs 1000
        summary := calculateSummary RowVal.tvlCategoriesRows amounts pointsData
        tableCondensed := RowVal.calculateRowData RowVal.tvlCategoriesRows amounts }

end Capture

namespace SnapApi

/-- The POST body of the snapshots route. `capturedAt` is `none` when the
field is missing or falsy, otherwise the epoch-millisecond instant its ISO
string denotes; `capturedAtUnix` is `none` when that field is absent. -/
structure Body where
  capturedAt : Option ℤ
  capturedAtUnix : Option ℤ
  summary : Option Capture.Summary
  tableCondensed : Option (List RowVal.RowValue)

/-- The record handed to `saveSnapshot` (column names of `tvl_snapshots`). -/
structure StoredSnapshot where
  captured_at : ℤ
  captured_at_unix : ℤ
  summary : Capture.Summary
  table_condensed : List RowVal.RowValue

/-- The snapshots route's `POST` handler up to the store call: `401` without a
matching bearer secret, `400` when `capturedAt`, `summary` or `tableCondensed`
is missing, otherwise the stored record, with
`captured_at_unix = body.capturedAtUnix || Math.floor(new Date(body.capturedAt).getTime() / 1000)`
(so a missing or zero — falsy — `capturedAtUnix` is derived from `capturedAt`). -/
def handlePost (authorized : Bool) (body : Body) : Except ℕ StoredSnapshot :=
  if ¬ authorized then .error 401
  else
    match body.capturedAt, body.summary, body.tableCondensed with
    | some ca, some s, some t =>
      .ok { captured_at := ca
            captured_at_unix :=
              match body.capturedAtUnix with
              | some u => if u = 0 then Int.fdiv ca 1000 else u
              | none => Int.fdiv ca 1000
            summary := s
            table_condensed := t }
    | _, _, _ => .error 400

end SnapApi

/-- C1: in every evaluation pass of `calculateRowData`, every produced row
value whose definition has status "excluded" has `weightedTvl = 0` and
`share = 0`, for every amounts map and over arbitrary row tables (hence for
every raw amount and every boost/baseBoost of the row). -/
theorem valuation_exclusion_invariant (defs : List RowVal.RowDef)
    (amounts : String → ℚ) (v : RowVal.RowValue)
    (hv : v ∈ RowVal.calculateRowData defs amounts)
    (hx : v.status = RowVal.RowStatus.excluded) :
    v.weightedTvl = 0 ∧ v.share = 0 := by
  unfold RowVal.calculateRowData at hv
  simp only [List.mem_map] at hv
  obtain ⟨r, hr, rfl⟩ := hv
  simp only at hx
  refine ⟨?_, ?_⟩
  · simp [RowVal.weightedTvl, hx]
  · simp [RowVal.share, RowVal.included, hx]

/-- Witness for C1: the excluded `pt-nusd-feb26` row, with raw amount 7,
values to weight 0 and share 0. -/
theorem valuation_exclusion_invariant_witness :
    (⟨"pt-nusd-feb26", RowVal.RowStatus.excluded, 7, 0, 0, 0⟩ :
        RowVal.RowValue).weightedTvl = 0 ∧
    (⟨"pt-nusd-feb26", RowVal.RowStatus.excluded, 7, 0, 0, 0⟩ :
        RowVal.RowValue).share = 0 :=
  valuation_exclusion_invariant
    [⟨"pt-nusd-feb26", RowVal.RowStatus.excluded, 0, none⟩] (fun _ => 7) _
    (by decide) (by decide)

/-- C2: in every evaluation pass whose total weighted value over active and
locked rows is strictly positive, the shares of exactly the active and locked
rows sum to `100` (exactly, in rational arithmetic — hence within any
floating-point epsilon), and every row that is not active or locked has
share `0`. -/
theorem share_normalization (defs : List RowVal.RowDef) (amounts : String → ℚ)
    (h : 0 < RowVal.totalWeightedTvl defs amounts) :
    RowVal.sumIncludedShares defs amounts = 100 ∧
    ∀ r : RowVal.RowDef, RowVal.included r = false →
      RowVal.share defs amounts r = 0 := by
  refine ⟨?_, ?_⟩
  · unfold RowVal.sumIncludedShares
    have hcong : ∀ r ∈ defs.filter RowVal.included,
        RowVal.share defs amounts r
          = RowVal.weightedTvl r amounts
              * (100 / RowVal.totalWeightedTvl defs amounts) := by
      intro r hr
      have hinc : RowVal.included r = true := (List.mem_filter.mp hr).2
      rw [RowVal.share, if_pos ⟨h, hinc⟩, div_mul_eq_mul_div, mul_div_assoc]
    rw [List.map_congr_left hcong, List.sum_map_mul_right]
    have hsum : ((defs.filter RowVal.included).map
        (fun r => RowVal.weightedTvl r amounts)).sum
          = RowVal.totalWeightedTvl defs amounts := rfl
    rw [hsum]
    field_simp
  · intro r hr
    simp [RowVal.share, hr]

/-- Witness for C2: a single active row with boost 5 and amount 10 gives a
positive total, and its share sum is 100. -/
theorem share_normalization_witness :
    RowVal.sumIncludedShares [⟨"hold-nusd", RowVal.RowStatus.active, 5, none⟩]
      (fun _ => 10) = 100 :=
  (share_normalization _ _ (by
    simp [RowVal.totalWeightedTvl, RowVal.weightedTvl, RowVal.included,
      RowVal.effectiveBoost, RowVal.initBaseBoost, RowVal.jsTruthy,
      List.filter])).1

/-- C3: when every included (active or locked) row has raw amount `0`, the
total weighted value is `0`, the positive-total guard keeps the division from
ever being taken, and every share — of any row, and of every row value the
pass produces — is exactly `0`. -/
theorem zero_total_safety (defs : List RowVal.RowDef) (amounts : String → ℚ)
    (h : ∀ r ∈ defs, RowVal.included r = true → amounts r.id = 0) :
    RowVal.totalWeightedTvl defs amounts = 0 ∧
    (∀ r : RowVal.RowDef, RowVal.share defs amounts r = 0) ∧
    ∀ v ∈ RowVal.calculateRowData defs amounts, v.share = 0 := by
  have htot : RowVal.totalWeightedTvl defs amounts = 0 := by
    unfold RowVal.totalWeightedTvl
    apply List.sum_eq_zero
    intro x hx
    simp only [List.mem_map, List.mem_filter] at hx
    obtain ⟨r, ⟨hrmem, hrinc⟩, rfl⟩ := hx
    simp [RowVal.weightedTvl, h r hrmem hrinc]
  have hshare : ∀ r : RowVal.RowDef, RowVal.share defs amounts r = 0 := by
    intro r
    simp [RowVal.share, htot]
  refine ⟨htot, hshare, ?_⟩
  intro v hv
  unfold RowVal.calculateRowData at hv
  simp only [List.mem_map] at hv
  obtain ⟨r, _, rfl⟩ := hv
  exact hshare r

/-- Witness for C3: the full static row table with the all-zero amounts map
has total weighted value 0. -/
theorem zero_total_safety_witness :
    RowVal.totalWeightedTvl RowVal.tvlCategoriesRows (fun _ => 0) = 0 :=
  (zero_total_safety RowVal.tvlCategoriesRows (fun _ => 0)
    (fun _ _ _ => rfl)).1

/-- C4: over the program's static row table, every non-excluded row
definition has effective multiplier `baseBoost * boost` when a `baseBoost`
field is present and `boost` when it is absent; in particular the locked
3-month NUSD subrow (boost 6, baseBoost 5) has effective multiplier 30 and,
at raw amount 200, weighted value 6000. -/
theorem effective_multiplier :
    (∀ r ∈ RowVal.tvlCategoriesRows, r.status ≠ RowVal.RowStatus.excluded →
        RowVal.effectiveBoost r =
          match r.baseBoost with
          | some b => b * r.boost
          | none => r.boost) ∧
    RowVal.effectiveBoost
      ⟨"lock-nusd-3mo", RowVal.RowStatus.locked, 6, some 5⟩ = 30 ∧
    RowVal.weightedTvl ⟨"lock-nusd-3mo", RowVal.RowStatus.locked, 6, some 5⟩
      (fun _ => 200) = 6000 := by
  refine ⟨?_, ?_, ?_⟩
  · intro r hr _
    fin_cases hr <;>
      norm_num [RowVal.effectiveBoost, RowVal.initBaseBoost, RowVal.jsTruthy]
  · norm_num [RowVal.effectiveBoost, RowVal.initBaseBoost, RowVal.jsTruthy]
  · rw [RowVal.weightedTvl, if_neg (by simp)]
    norm_num [RowVal.effectiveBoost, RowVal.initBaseBoost, RowVal.jsTruthy]

/-- Witness for C4: the first conjunct applied at the locked 3-month NUSD
subrow of the static table. -/
theorem effective_multiplier_witness :
    RowVal.effectiveBoost
      ⟨"lock-nusd-3mo", RowVal.RowStatus.locked, 6, some 5⟩ = 5 * 6 := by
  have h := effective_multiplier.1
    ⟨"lock-nusd-3mo", RowVal.RowStatus.locked, 6, some 5⟩
    (by decide) (by decide)
  exact h

/-- C5: for every history of at least two snapshots, the inflation route
sorts ascending by `capturedAtUnix`, takes the first element as oldest and
the last as newest, floors the rounded calendar-day difference at 1, and
returns `(pow(newest/oldest, 1/days) - 1) * 100` for each of the TVL,
weighted-TVL and points metrics. -/
theorem growth_rate_computation (history : List Growth.Snapshot)
    (h : 2 ≤ history.length) :
    let sorted := Growth.sortByUnix history
    let oldest := sorted.headI
    let newest := sorted.getLastI
    let d := max (Growth.getCalendarDaysDiff oldest.capturedAtMs
      newest.capturedAtMs) 1
    1 ≤ d ∧
    Growth.computeGrowthRates history = some
      { tvlDailyGrowthRate :=
          ((newest.totalTvl / oldest.totalTvl) ^ ((1 : ℝ) / (d : ℝ)) - 1) * 100
        weightedTvlDailyGrowthRate :=
          ((newest.weightedTvl / oldest.weightedTvl) ^ ((1 : ℝ) / (d : ℝ)) - 1)
            * 100
        pointsDailyGrowthRate :=
          ((newest.s1RewardsIssued / oldest.s1RewardsIssued)
            ^ ((1 : ℝ) / (d : ℝ)) - 1) * 100 } := by
  intro sorted oldest newest d
  have hd : (0 : ℤ) < d := lt_of_lt_of_le one_pos (le_max_right _ _)
  refine ⟨le_max_right _ _, ?_⟩
  rw [Growth.computeGrowthRates, if_neg (by omega)]
  simp only [Growth.dailyGrowthRate, if_pos hd]

namespace Growth

/-- Sample two-snapshot history: one day apart, nonzero metrics. -/
def sampleHistory : List Snapshot :=
  [⟨0, 0, 1, 2, 3⟩, ⟨86400000, 86400, 4, 5, 6⟩]

/-- Sample two-snapshot history whose oldest snapshot has every metric
value 0 (a zero growth baseline), one day apart. -/
def zeroBaselineHistory : List Snapshot :=
  [⟨0, 0, 0, 0, 0⟩, ⟨86400000, 86400, 1000, 1000, 1000⟩]

end Growth

/-- Witness for C5: the growth computation on a concrete two-snapshot
history one calendar day apart. -/
theorem growth_rate_computation_witness :
    1 ≤ max (Growth.getCalendarDaysDiff
        (Growth.sortByUnix Growth.sampleHistory).headI.capturedAtMs
        (Growth.sortByUnix Growth.sampleHistory).getLastI.capturedAtMs) 1 ∧
    Growth.computeGrowthRates Growth.sampleHistory = some
      { tvlDailyGrowthRate :=
          (((Growth.sortByUnix Growth.sampleHistory).getLastI.totalTvl /
              (Growth.sortByUnix Growth.sampleHistory).headI.totalTvl)
            ^ ((1 : ℝ) / ((max (Growth.getCalendarDaysDiff
                (Growth.sortByUnix Growth.sampleHistory).headI.capturedAtMs
                (Growth.sortByUnix Growth.sampleHistory).getLastI.capturedAtMs)
                1 : ℤ) : ℝ)) - 1) * 100
        weightedTvlDailyGrowthRate :=
          (((Growth.sortByUnix Growth.sampleHistory).getLastI.weightedTvl /
              (Growth.sortByUnix Growth.sampleHistory).headI.weightedTvl)
            ^ ((1 : ℝ) / ((max (Growth.getCalendarDaysDiff
                (Growth.sortByUnix Growth.sampleHistory).headI.capturedAtMs
                (Growth.sortByUnix Growth.sampleHistory).getLastI.capturedAtMs)
                1 : ℤ) : ℝ)) - 1) * 100
        pointsDailyGrowthRate :=
          (((Growth.sortByUnix Growth.sampleHistory).getLastI.s1RewardsIssued /
              (Growth.sortByUnix Growth.sampleHistory).headI.s1RewardsIssued)
            ^ ((1 : ℝ) / ((max (Growth.getCalendarDaysDiff
                (Growth.sortByUnix Growth.sampleHistory).headI.capturedAtMs
                (Growth.sortByUnix Growth.sampleHistory).getLastI.capturedAtMs)
                1 : ℤ) : ℝ)) - 1) * 100 } :=
  growth_rate_computation Growth.sampleHistory
    (by norm_num [Growth.sampleHistory])

/-- C6 counterexample: on a history whose oldest snapshot has metric value 0
the route does not fail — it returns a numeric growth-rates object (here the
real-arithmetic junk value `-100` per metric, the image of the JS `Infinity`
path): no `DivisionByZero`/`UndefinedGrowth` condition exists in the code. -/
theorem growth_zero_baseline_counterexample :
    Growth.computeGrowthRates Growth.zeroBaselineHistory =
      some ⟨-100, -100, -100⟩ := by
  have hsort : Growth.sortByUnix Growth.zeroBaselineHistory =
      Growth.zeroBaselineHistory := by
    norm_num [Growth.zeroBaselineHistory, Growth.sortByUnix, Growth.insertByUnix]
  have hdiff : Growth.getCalendarDaysDiff 0 86400000 = 1 := by
    have h1 : Int.fdiv 86400000 86400000 = 1 := by decide
    have h0 : Int.fdiv 0 86400000 = 0 := by decide
    norm_num [Growth.getCalendarDaysDiff, Growth.getCalendarDateMs, h1, h0,
      round_eq]
  rw [Growth.computeGrowthRates,
    if_neg (by norm_num [Growth.zeroBaselineHistory])]
  simp only [hsort]
  norm_num [Growth.zeroBaselineHistory, List.headI, List.getLastI, hdiff,
    Growth.dailyGrowthRate]

/-- C6 amended: for every history of at least two snapshots — in particular
whenever the oldest snapshot's metric value is 0 — the growth-rate
computation does not fail: the route returns a growth-rates object, and the
zero baseline flows through the power formula as an untyped junk value
instead of raising a distinct DivisionByZero/UndefinedGrowth error (the only
error the route signals is having fewer than two snapshots). -/
theorem growth_zero_baseline_no_error (history : List Growth.Snapshot)
    (h : 2 ≤ history.length)
    (_h0 : (Growth.sortByUnix history).headI.totalTvl = 0) :
    (Growth.computeGrowthRates history).isSome = true := by
  rw [Growth.computeGrowthRates, if_neg (by omega)]
  rfl

/-- Witness for the amended C6: the zero-baseline history is accepted and
produces a result. -/
theorem growth_zero_baseline_no_error_witness :
    (Growth.computeGrowthRates Growth.zeroBaselineHistory).isSome = true :=
  growth_zero_baseline_no_error Growth.zeroBaselineHistory
    (by norm_num [Growth.zeroBaselineHistory])
    (by norm_num [Growth.zeroBaselineHistory, Growth.sortByUnix,
      Growth.insertByUnix])

/-- C7: with `g = (1 + dailyRatePercent/100)^horizonDays` the total
multiplier, the chart's average emission multiplier is exactly 1 when
`g = 1` and `(g - 1) / ln g` otherwise (for the positive multipliers the
formula is meant for), and `newPoints = E * avgMultiplier * h` is added to
the current total; at `dailyRatePercent = 0` this degenerates exactly to the
linear `E * h` with no 0/0 from the logarithm formula. -/
theorem tvl_scaled_emission (h : ℕ) (r E T : ℝ) :
    (Chart.tvlMultiplier r h = 1 →
      Chart.avgEmissionMultiplier (Chart.tvlMultiplier r h) = 1 ∧
      Chart.projectedPoints T E r h = T + E * 1 * h) ∧
    (Chart.tvlMultiplier r h ≠ 1 → 0 < Chart.tvlMultiplier r h →
      Chart.avgEmissionMultiplier (Chart.tvlMultiplier r h) =
        (Chart.tvlMultiplier r h - 1) /
          Real.log (Chart.tvlMultiplier r h)) ∧
    (r = 0 → Chart.projectedPoints T E r h = T + E * h) := by
  refine ⟨?_, ?_, ?_⟩
  · intro hg
    constructor
    · rw [Chart.avgEmissionMultiplier, if_pos hg]
    · rw [Chart.projectedPoints, Chart.projectedNewPoints,
        Chart.avgEmissionMultiplier, if_pos hg]
  · intro hne hpos
    have hlog : Real.log (Chart.tvlMultiplier r h) ≠ 0 := by
      exact Real.log_ne_zero_of_pos_of_ne_one hpos hne
    rw [Chart.avgEmissionMultiplier, if_neg hne, Chart.jsOrOne, if_neg hlog]
  · intro hr
    subst hr
    have hg : Chart.tvlMultiplier 0 h = 1 := by
      simp [Chart.tvlMultiplier]
    rw [Chart.projectedPoints, Chart.projectedNewPoints, hg,
      Chart.avgEmissionMultiplier, if_pos rfl, mul_one]

/-- Witness for C7: the three branches at concrete inputs — zero growth over
5 days (multiplier 1, linear points), and a 100%-per-day rate over 1 day
(multiplier 2, logarithmic average). -/
theorem tvl_scaled_emission_witness :
    Chart.avgEmissionMultiplier (Chart.tvlMultiplier 0 5) = 1 ∧
    Chart.avgEmissionMultiplier (Chart.tvlMultiplier 100 1) =
      (Chart.tvlMultiplier 100 1 - 1) /
        Real.log (Chart.tvlMultiplier 100 1) ∧
    Chart.projectedPoints 10 2 0 5 = 10 + 2 * (5 : ℕ) := by
  refine ⟨((tvl_scaled_emission 5 0 2 10).1 ?_).1,
    (tvl_scaled_emission 1 100 2 10).2.1 ?_ ?_,
    (tvl_scaled_emission 5 0 2 10).2.2 rfl⟩
  · simp [Chart.tvlMultiplier]
  · norm_num [Chart.tvlMultiplier]
  · norm_num [Chart.tvlMultiplier]

/-- C8: for positive metric values `V0` (oldest) and `V1` (newest) `D ≥ 1`
calendar days apart, the daily rate computed by the inflation route fed back
through the chart's DirectCompound projection over the same `D`-day horizon
reproduces `V1` exactly: the two computations are mutually inverse. -/
theorem growth_round_trip (V0 V1 : ℝ) (D : ℕ) (h0 : 0 < V0) (h1 : 0 < V1)
    (hD : 1 ≤ D) :
    Chart.projectedTvl V0 (Growth.dailyGrowthRate V0 V1 (D : ℤ)) D = V1 := by
  have hDpos : (0 : ℤ) < (D : ℤ) := by exact_mod_cast hD
  have hDne : ((D : ℤ) : ℝ) ≠ 0 := by
    have : D ≠ 0 := by omega
    push_cast
    exact_mod_cast this
  rw [Growth.dailyGrowthRate, if_pos hDpos, Chart.projectedTvl,
    Chart.tvlMultiplier]
  have hsimp : 1 + ((V1 / V0) ^ ((1 : ℝ) / ((D : ℤ) : ℝ)) - 1) * 100 / 100 =
      (V1 / V0) ^ ((1 : ℝ) / ((D : ℤ) : ℝ)) := by ring
  rw [hsimp]
  have hbase : (0 : ℝ) ≤ V1 / V0 := le_of_lt (div_pos h1 h0)
  rw [← Real.rpow_natCast ((V1 / V0) ^ ((1 : ℝ) / ((D : ℤ) : ℝ))) D,
    ← Real.rpow_mul hbase]
  have hcast : ((D : ℕ) : ℝ) = ((D : ℤ) : ℝ) := by push_cast; rfl
  rw [hcast, one_div_mul_cancel hDne, Real.rpow_one]
  field_simp

/-- Witness for C8: V0 = 1, V1 = 4, one day apart. -/
theorem growth_round_trip_witness :
    Chart.projectedTvl 1 (Growth.dailyGrowthRate 1 4 ((1 : ℕ) : ℤ)) 1 = 4 :=
  growth_round_trip 1 4 1 one_pos (by norm_num) le_rfl

/-- C9: in every capture invocation, a successful (retried) TVL fetch with a
failed points fetch still yields a snapshot whose summary records 0 points
and 0 participants, while a TVL fetch that exhausts its retries aborts the
capture with no snapshot produced — partial failure is tolerated only for
the points source. -/
theorem capture_points_degradation
    (tvlAttempts : ℕ → Capture.FetchOutcome (String → ℚ))
    (pointsAttempts : ℕ → Capture.FetchOutcome Capture.PointsData)
    (nowMs : ℤ) :
    (∀ amounts, Capture.fetchWithRetry tvlAttempts 4 = .ok amounts →
      ∀ e, Capture.fetchWithRetry pointsAttempts 2 = .error e →
        ∃ snap, Capture.mainCapture tvlAttempts pointsAttempts nowMs =
            .ok snap ∧
          snap.summary.s1RewardsIssued = 0 ∧
          snap.summary.participantCount = 0) ∧
    (∀ e, Capture.fetchWithRetry tvlAttempts 4 = .error e →
      Capture.mainCapture tvlAttempts pointsAttempts nowMs = .error e) := by
  constructor
  · intro amounts hok e herr
    have hmain : Capture.mainCapture tvlAttempts pointsAttempts nowMs = .ok
        { capturedAtMs := nowMs
          capturedAtUnix := Int.fdiv nowMs 1000
          summary :=
            Capture.calculateSummary RowVal.tvlCategoriesRows amounts none
          tableCondensed :=
            RowVal.calculateRowData RowVal.tvlCategoriesRows amounts } := by
      rw [Capture.mainCapture, hok]
      simp [herr, Except.toOption]
    exact ⟨_, hmain, rfl, rfl⟩
  · intro e herr
    rw [Capture.mainCapture, herr]

/-- Witness for C9: a TVL source that answers immediately with a points
source that never does, and a TVL source that never answers. -/
theorem capture_points_degradation_witness :
    (∃ snap, Capture.mainCapture (fun _ => .ok fun _ => 0)
        (fun _ => .retryable) 0 = .ok snap ∧
      snap.summary.s1RewardsIssued = 0 ∧
      snap.summary.participantCount = 0) ∧
    Capture.mainCapture (fun _ => .retryable) (fun _ => .retryable) 0 =
      .error () :=
  ⟨(capture_points_degradation _ _ 0).1 _ rfl () rfl,
   (capture_points_degradation _ _ 0).2 () rfl⟩

/-- C10: an authorized POST whose body misses any of `capturedAt`, `summary`
or `tableCondensed` is rejected with 400 and nothing is stored; otherwise a
missing (or falsy, e.g. 0) `capturedAtUnix` makes the stored
`captured_at_unix` the floor of the `capturedAt` epoch-milliseconds divided
by 1000, so that stored record's unix timestamp is consistent with its ISO
timestamp. -/
theorem snapshot_post_validation (body : SnapApi.Body) :
    ((body.capturedAt = none ∨ body.summary = none ∨
        body.tableCondensed = none) →
      SnapApi.handlePost true body = .error 400) ∧
    (∀ ca s t, body.capturedAt = some ca → body.summary = some s →
      body.tableCondensed = some t →
      (body.capturedAtUnix = none ∨ body.capturedAtUnix = some 0) →
      ∃ snap, SnapApi.handlePost true body = .ok snap ∧
        snap.captured_at = ca ∧
        snap.captured_at_unix = Int.fdiv ca 1000 ∧
        snap.captured_at_unix = Int.fdiv snap.captured_at 1000) := by
  obtain ⟨bca, bcu, bs, bt⟩ := body
  constructor
  · intro hmiss
    rcases hmiss with h | h | h <;> simp only at h <;> subst h <;>
      first
        | (cases bs <;> cases bt <;> simp [SnapApi.handlePost])
        | (cases bca <;> cases bt <;> simp [SnapApi.handlePost])
        | (cases bca <;> cases bs <;> simp [SnapApi.handlePost])
  · intro ca s t hca hs ht hu
    simp only at hca hs ht hu
    subst hca; subst hs; subst ht
    rcases hu with h | h <;> subst h <;>
      exact ⟨_, rfl, rfl, rfl, rfl⟩

/-- Witness for C10: an empty body is rejected with 400, and a body with
`capturedAtUnix = 0` and `capturedAt` at epoch-millisecond 1500 stores
`captured_at_unix = 1`. -/
theorem snapshot_post_validation_witness :
    SnapApi.handlePost true ⟨none, none, none, none⟩ = .error 400 ∧
    ∃ snap, SnapApi.handlePost true
        ⟨some 1500, some 0, some ⟨0, 0, 0, 0⟩, some []⟩ = .ok snap ∧
      snap.captured_at = 1500 ∧
      snap.captured_at_unix = Int.fdiv 1500 1000 ∧
      snap.captured_at_unix = Int.fdiv snap.captured_at 1000 :=
  ⟨(snapshot_post_validation ⟨none, none, none, none⟩).1 (Or.inl rfl),
   (snapshot_post_validation ⟨some 1500, some 0, some ⟨0, 0, 0, 0⟩,
      some []⟩).2 1500 ⟨0, 0, 0, 0⟩ [] rfl rfl rfl (Or.inr rfl)⟩
